import Mathlib

/-!
Verification development for the tutorial-script repository
(`Flask.py`, `Requests.py`, `NumPy.py`, `Pandas.py`).

The definitions below are a shallow embedding of the code under
`src/python/libraries/`.  Python dict values appearing in JSON bodies are
modelled by `JVal`; the mock user table of `Flask.py` is a list of `User`
records (a user dict in the script always has exactly the keys
`id`, `name`, `email`, `age`); mutation of module state is modelled by
explicit state passing; code that raises is modelled with `Option`/`Except`.
-/

namespace FlaskEx

/-- A JSON value as used in request/response bodies of the scripts. -/
inductive JVal where
  | str : String → JVal
  | int : Int → JVal
  | null : JVal
deriving Repr, DecidableEq

/-- A JSON object (Python dict) as an association list in insertion order. -/
abbrev Dict := List (String × JVal)

/-- Look a key up in a dict (`d[k]` / `k in d`). -/
def dget : Dict → String → Option JVal
  | [], _ => none
  | kv :: rest, k => if kv.1 = k then some kv.2 else dget rest k

/-- A user record of the mock database `users_db` in `Flask.py`.
Every user dict in the script has exactly the keys
`id`, `name`, `email`, `age`, so a fixed record is a faithful model. -/
structure User where
  id : Int
  name : JVal
  email : JVal
  age : JVal
deriving Repr, DecidableEq

/-- Initial value of `users_db`, the in-memory mock database (Flask.py lines 277-281). -/
def users_db : List User :=
  [ ⟨1, .str "Alice Johnson", .str "alice@example.com", .int 28⟩,
    ⟨2, .str "Bob Smith", .str "bob@example.com", .int 32⟩,
    ⟨3, .str "Charlie Brown", .str "charlie@example.com", .int 25⟩ ]

/-- The response body of a Flask JSON handler. -/
inductive JBody where
  | user : User → JBody
  | users : List User → JBody
  | err : String → JBody
  | msg : String → JBody
deriving Repr, DecidableEq

/-- A handler result: JSON body plus HTTP status code. -/
abbrev JResp := JBody × Nat

/-- Model of `next((u for u in users_db if u['id'] == user_id), None)` —
first element of the list whose id matches, if any. -/
def firstById : List User → Int → Option User
  | [], _ => none
  | u :: rest, uid => if u.id = uid then some u else firstById rest uid

/-- Handler `get_user` (Flask.py lines 291-298): linear scan, 404 on miss. -/
def get_user (db : List User) (uid : Int) : JResp :=
  match firstById db uid with
  | some u => (.user u, 200)
  | none => (.err "User not found", 404)

/-- Python `max` over a nonempty list, `max([...])`:
fold of binary `max` over the tail starting from the head. -/
def listMax : List Int → Int
  | [] => 0
  | x :: xs => xs.foldl max x

/-- Handler `create_user` (Flask.py lines 300-316).  Input is the parsed JSON body
(`request.get_json()` gives `none` when there is no JSON body; `if not data`
is also true for the empty dict).  Returns the response and the new
database state. -/
def create_user (db : List User) (data : Option Dict) : JResp × List User :=
  match data with
  | none => ((.err "Name and email are required", 400), db)
  | some d =>
    if d = [] ∨ dget d "name" = none ∨ dget d "email" = none then
      ((.err "Name and email are required", 400), db)
    else
      let newUser : User :=
        { id := if db = [] then 1 else listMax (db.map (·.id)) + 1
          name := (dget d "name").getD .null
          email := (dget d "email").getD .null
          age := (dget d "age").getD (.int 0) }
      ((.user newUser, 201), db ++ [newUser])

/-- One item of `user.update(...)`: assign the field when the key is
whitelisted, ignore the item otherwise. -/
def applyField (u : User) (kv : String × JVal) : User :=
  if kv.1 = "name" then { u with name := kv.2 }
  else if kv.1 = "email" then { u with email := kv.2 }
  else if kv.1 = "age" then { u with age := kv.2 }
  else u

/-- Model of `user.update` on the filtered dict comprehension
(Flask.py line 329): assign the whitelisted fields in item order, ignore
every other key. -/
def applyWhitelist (u : User) (d : Dict) : User :=
  d.foldl applyField u

/-- In-place mutation of the first element with the given id
(the dict returned by `next(...)` is mutated, so exactly the first match
in the list changes). -/
def updateFirst : List User → Int → (User → User) → List User
  | [], _, _ => []
  | u :: rest, uid, f =>
    if u.id = uid then f u :: rest else u :: updateFirst rest uid f

/-- Handler `update_user` (Flask.py lines 318-330): 404 on miss, 400 on missing or
empty body, otherwise update the whitelisted fields of the found user. -/
def update_user (db : List User) (uid : Int) (data : Option Dict) :
    JResp × List User :=
  match firstById db uid with
  | none => ((.err "User not found", 404), db)
  | some u =>
    match data with
    | none => ((.err "No data provided", 400), db)
    | some d =>
      if d = [] then ((.err "No data provided", 400), db)
      else
        let u' := applyWhitelist u d
        ((.user u', 200), updateFirst db uid (fun _ => u'))

/-- Handler `delete_user` (Flask.py lines 332-341): 404 on miss, otherwise rebind
`users_db` to the list comprehension keeping the other ids. -/
def delete_user (db : List User) (uid : Int) : JResp × List User :=
  match firstById db uid with
  | none => ((.err "User not found", 404), db)
  | some _ =>
    ((.msg "User deleted successfully", 200), db.filter (fun u => u.id ≠ uid))

/-! Session management (Flask.py lines 205-269).

The Flask session is a per-client string-to-string map.  Flash messages
are stored by the framework in its own message queue and are modelled
separately from the keys the application writes. -/

/-- The cookie-backed session, as a map in insertion order. -/
abbrev SessionMap := List (String × String)

/-- Lookup `session[k]` (also `k in session`). -/
def sget : SessionMap → String → Option String
  | [], _ => none
  | kv :: rest, k => if kv.1 = k then some kv.2 else sget rest k

/-- Assignment `session[k] = v` — Python dict semantics: replace in place, else append. -/
def sset : SessionMap → String → String → SessionMap
  | [], k, v => [(k, v)]
  | kv :: rest, k, v =>
    if kv.1 = k then (k, v) :: rest else kv :: sset rest k v

/-- Model of `session.pop(k, None)` — remove the key if present. -/
def spop (s : SessionMap) (k : String) : SessionMap :=
  s.filter (fun kv => kv.1 ≠ k)

/-- Where a handler sends the client next. -/
inductive LoginOut where
  | redirect : String → LoginOut
deriving Repr, DecidableEq

/-- The POST branch of `login` (Flask.py lines 235-247).  `username` and
`password` come from `request.form.get` (`none` when the field is absent);
`now` is `datetime.now().isoformat()`.  Returns the new session, the
redirect target, and the flash message. -/
def login_post (username password : Option String) (now : String)
    (s : SessionMap) : SessionMap × LoginOut × String :=
  let truthy : Option String → Bool := fun o =>
    match o with
    | none => false
    | some v => !v.isEmpty
  if truthy username ∧ truthy password then
    (sset (sset s "username" ((username).getD "")) "login_time" now,
     .redirect "profile", "Login successful!")
  else
    (s, .redirect "login", "Invalid credentials!")

/-- Handler `logout` (Flask.py lines 263-269): pop both keys, flash, redirect home. -/
def logout (s : SessionMap) : SessionMap × LoginOut × String :=
  (spop (spop s "username") "login_time", .redirect "home",
   "You have been logged out!")

/-! The route table of `Flask.py` as a whole.

`Flask.py` has exactly two module-level bindings that any handler could
touch: the `app` object (secret key and config, set once at import time)
and `users_db`.  `ModuleState` carries both; every handler below is the
translation of the corresponding source handler as a function of the
module state and the incoming request. -/

/-- The module-level state of `Flask.py`. -/
structure ModuleState where
  users_db : List User
  app_secret_key : String
  app_config : List (String × String)
deriving Repr, DecidableEq

/-- The parts of the incoming request the handlers read. -/
structure RequestCtx where
  method : String
  path : String
  name : String
  uid : Int
  jsonBody : Option Dict
  form_username : Option String
  form_password : Option String
  uploadedFile : Option String
  is_json : Bool
  sess : SessionMap
  now : String
deriving Repr, DecidableEq

/-- A handler's response body, with HTML pages abstracted to a tag naming
the page (their text plays no role in any claim). -/
inductive Resp where
  | page : String → Resp
  | text : String → Resp
  | jsonB : JBody → Resp
  | jsonObj : String → Resp
  | redirect : String → Resp
  | sendFile : String → Resp
deriving Repr, DecidableEq

/-- Everything a handler produces: response, status, resulting module
state, resulting session, flash messages, files written. -/
structure HandlerOut where
  resp : Resp
  status : Nat
  state : ModuleState
  sess : SessionMap
  flashes : List String
  files_written : List String
deriving Repr, DecidableEq

/-- The route handlers (and the two error handlers) defined in `Flask.py`. -/
inductive Route where
  | home | hello | helloName | userProfile | handleData | search
  | formExample | uploadFile | loginR | profileR | logoutR
  | getUsers | getUserR | createUserR | updateUserR | deleteUserR
  | protectedEndpoint | jsonOnlyEndpoint | notFound404 | internalError500
  | downloadData | customResponse | templateExample | healthCheck | apiDocs
deriving Repr, DecidableEq

/-- Shorthand for a handler output that leaves everything but the
response untouched. -/
def pureOut (st : ModuleState) (rq : RequestCtx) (r : Resp)
    (status : Nat := 200) : HandlerOut :=
  ⟨r, status, st, rq.sess, [], []⟩

/-- Dispatch on the route table: each arm is the translation of the
corresponding handler in `Flask.py`. -/
def runHandler (r : Route) (st : ModuleState) (rq : RequestCtx) : HandlerOut :=
  match r with
  | .home => pureOut st rq (.page "home")
  | .hello => pureOut st rq (.page "hello")
  | .helloName => pureOut st rq (.page ("hello:" ++ rq.name))
  | .userProfile => pureOut st rq (.page ("user_profile:" ++ rq.name))
  | .handleData =>
    if rq.method = "POST" then pureOut st rq (.jsonObj "data:POST") 201
    else pureOut st rq (.jsonObj ("data:" ++ rq.method))
  | .search => pureOut st rq (.jsonObj "search")
  | .formExample =>
    if rq.method = "GET" then pureOut st rq (.page "form")
    else pureOut st rq (.page "form_submitted")
  | .uploadFile =>
    if rq.method = "GET" then pureOut st rq (.page "upload_form")
    else
      match rq.uploadedFile with
      | none => pureOut st rq (.text "No file selected") 400
      | some f =>
        if f.isEmpty then pureOut st rq (.text "No file selected") 400
        else pureOut st rq (.page "upload_success")
  | .loginR =>
    if rq.method = "GET" then
      if sget rq.sess "username" ≠ none then
        pureOut st rq (.page "already_logged_in")
      else pureOut st rq (.page "login_form")
    else
      let o := login_post rq.form_username rq.form_password rq.now rq.sess
      match o.2.1 with
      | .redirect t => ⟨.redirect t, 302, st, o.1, [o.2.2], []⟩
  | .profileR =>
    if sget rq.sess "username" = none then
      ⟨.redirect "login", 302, st, rq.sess, ["Please log in first!"], []⟩
    else pureOut st rq (.page "profile")
  | .logoutR =>
    let o := logout rq.sess
    match o.2.1 with
    | .redirect t => ⟨.redirect t, 302, st, o.1, [o.2.2], []⟩
  | .getUsers => pureOut st rq (.jsonB (.users st.users_db))
  | .getUserR =>
    let o := get_user st.users_db rq.uid
    pureOut st rq (.jsonB o.1) o.2
  | .createUserR =>
    let o := create_user st.users_db rq.jsonBody
    ⟨.jsonB o.1.1, o.1.2, { st with users_db := o.2 }, rq.sess, [], []⟩
  | .updateUserR =>
    let o := update_user st.users_db rq.uid rq.jsonBody
    ⟨.jsonB o.1.1, o.1.2, { st with users_db := o.2 }, rq.sess, [], []⟩
  | .deleteUserR =>
    let o := delete_user st.users_db rq.uid
    ⟨.jsonB o.1.1, o.1.2, { st with users_db := o.2 }, rq.sess, [], []⟩
  | .protectedEndpoint =>
    if sget rq.sess "username" = none then
      pureOut st rq (.jsonB (.err "Authentication required")) 401
    else pureOut st rq (.jsonObj "protected")
  | .jsonOnlyEndpoint =>
    if !rq.is_json then
      pureOut st rq (.jsonB (.err "Content-Type must be application/json")) 400
    else pureOut st rq (.jsonObj "json_received")
  | .notFound404 =>
    if rq.path.startsWith "/api/" then
      pureOut st rq (.jsonB (.err "Endpoint not found")) 404
    else pureOut st rq (.page "not_found") 404
  | .internalError500 =>
    if rq.path.startsWith "/api/" then
      pureOut st rq (.jsonB (.err "Internal server error")) 500
    else pureOut st rq (.page "internal_error") 500
  | .downloadData =>
    ⟨.sendFile "users_data.json", 200, st, rq.sess, [], ["users_data.json"]⟩
  | .customResponse => pureOut st rq (.jsonObj "custom_response")
  | .templateExample => pureOut st rq (.page "template_example")
  | .healthCheck => pureOut st rq (.jsonObj "health")
  | .apiDocs => pureOut st rq (.jsonObj "docs")

end FlaskEx

namespace RequestsEx

open FlaskEx (JVal)

/-! Embedding of `make_request_with_error_handling` (Requests.py lines 186-231). -/

/-- An HTTP response as seen by the function: status code, headers,
the result of `response.json()` (`none` when the body is not valid JSON,
in which case `.json()` raises `json.JSONDecodeError`), and `response.text`. -/
structure HttpResponse where
  status_code : Nat
  headers : List (String × String)
  jsonResult : Option JVal
  text : String
deriving Repr, DecidableEq

/-- Header lookup in the style of `response.headers.get(k, "")` (case handling elided:
the script always asks for the lowercase header name). -/
def headerGet (hs : List (String × String)) (k : String) : String :=
  ((hs.lookup k).getD "")

/-- What the underlying `requests.get` call does: either it returns a
response, or it raises one of the library's exception types. -/
inductive RequestOutcome where
  | response : HttpResponse → RequestOutcome
  | connectionError : RequestOutcome
  | timeoutError : RequestOutcome
  | requestError : String → RequestOutcome
deriving Repr, DecidableEq

/-- The body value placed in the result dict. -/
inductive Payload where
  | json : JVal → Payload
  | text : String → Payload
deriving Repr, DecidableEq

/-- The dict returned by `make_request_with_error_handling`: each branch of
the source builds a dict with a subset of these keys, absent keys are
`none`. -/
structure RequestResult where
  success : Bool
  status_code : Option Nat := none
  data : Option Payload := none
  headers : List (String × String) := []
  error_type : Option String := none
  message : Option String := none
deriving Repr, DecidableEq

/-- Predicate for `response.raise_for_status()`: it raises `HTTPError` exactly for 4xx/5xx. -/
def raisesForStatus (status : Nat) : Bool :=
  400 ≤ status ∧ status < 600

/-- Message `str(e)` for the `HTTPError` raised by `raise_for_status` (the exact
text is produced by the library; only its presence matters here). -/
def httpErrorText (status : Nat) : String :=
  "HTTP error " ++ toString status

/-- Function `make_request_with_error_handling` (Requests.py lines 186-231):
try the request, `raise_for_status`, build a success dict whose `data` is
the parsed JSON when the content type says JSON and the raw text otherwise;
each `except` branch returns a structured error dict to the caller. -/
def make_request_with_error_handling (o : RequestOutcome) : RequestResult :=
  match o with
  | .response r =>
    if raisesForStatus r.status_code then
      { success := false, error_type := some "HTTP Error",
        status_code := some r.status_code,
        message := some (httpErrorText r.status_code) }
    else if (headerGet r.headers "content-type").startsWith "application/json" then
      match r.jsonResult with
      | some j =>
        { success := true, status_code := some r.status_code,
          data := some (.json j), headers := r.headers }
      | none =>
        { success := false, error_type := some "JSON Decode Error",
          message := some "Invalid JSON response" }
    else
      { success := true, status_code := some r.status_code,
        data := some (.text r.text), headers := r.headers }
  | .connectionError =>
    { success := false, error_type := some "Connection Error",
      message := some "Failed to connect to the server" }
  | .timeoutError =>
    { success := false, error_type := some "Timeout Error",
      message := some "Request timed out" }
  | .requestError m =>
    { success := false, error_type := some "Request Error", message := some m }

/-! Embedding of `create_session_with_retries` (Requests.py lines 254-271). -/

/-- The urllib3 `Retry` policy exactly as constructed in the source. -/
structure Retry where
  total : Nat
  status_forcelist : List Nat
  method_whitelist : List String
  backoff_factor : Nat
deriving Repr, DecidableEq

/-- Adapter `HTTPAdapter(max_retries=...)`. -/
structure HTTPAdapter where
  max_retries : Retry
deriving Repr, DecidableEq

/-- A `requests.Session`, recording mounted adapters and how many
requests the session has performed. -/
structure Session where
  mounts : List (String × HTTPAdapter) := []
  requests_made : Nat := 0
deriving Repr, DecidableEq

/-- Model of `session.mount(p, adapter)` — register the adapter under the
URL prefix. -/
def Session.mount (s : Session) (p : String) (a : HTTPAdapter) : Session :=
  { s with mounts := (p, a) :: s.mounts }

/-- The `Retry` value built inside `create_session_with_retries`. -/
def retry_strategy : Retry :=
  { total := 3
    status_forcelist := [429, 500, 502, 503, 504]
    method_whitelist := ["HEAD", "GET", "OPTIONS"]
    backoff_factor := 1 }

/-- Function `create_session_with_retries` (Requests.py lines 254-271): a straight-line
function that builds a session, mounts one adapter for each of the two
prefixes, and returns it without issuing any request. -/
def create_session_with_retries : Session :=
  let session : Session := {}
  let adapter : HTTPAdapter := { max_retries := retry_strategy }
  ((session.mount "http://" adapter).mount "https://" adapter)

/-! Embedding of `APIClient` (Requests.py lines 392-447). -/

/-- Character test used by `rstrip` and `lstrip` with argument `'/'`. -/
def isSlash (c : Char) : Bool := c = '/'

/-- Python `s.lstrip('/')`: drop every leading `'/'`. -/
def lstripSlash (s : String) : String := ⟨s.data.dropWhile isSlash⟩

/-- Python `s.rstrip('/')`: drop every trailing `'/'`. -/
def rstripSlash (s : String) : String :=
  ⟨(s.data.reverse.dropWhile isSlash).reverse⟩

/-- The `APIClient` state set up by `__init__` (Requests.py lines 395-409). -/
structure APIClient where
  base_url : String
  timeout : Nat
deriving Repr, DecidableEq

/-- Constructor `APIClient.__init__`: store the slash-stripped base URL and the timeout
(the source defaults it to 30). -/
def APIClient.init (base_url : String) (timeout : Nat) : APIClient :=
  { base_url := rstripSlash base_url, timeout := timeout }

/-- What `self.session.request(...)` does inside `_make_request`:
returns a response (status, parsed JSON if the body is valid JSON, text)
or raises a `RequestException` described by a message. -/
inductive SessionOutcome where
  | response : Nat → Option JVal → String → SessionOutcome
  | exn : String → SessionOutcome
deriving Repr, DecidableEq

/-- The value `_make_request` returns on success: parsed JSON, or the raw
text when `response.json()` raises `json.JSONDecodeError`. -/
inductive ApiPayload where
  | json : JVal → ApiPayload
  | text : String → ApiPayload
deriving Repr, DecidableEq

/-- Method `APIClient._make_request` (Requests.py lines 411-427): build the URL
as `f"{self.base_url}/{endpoint.lstrip('/')}"`; on any
`RequestException` — including the `HTTPError` from `raise_for_status` —
print a message and re-raise (`Except.error`).  The requested URL is
returned alongside so that it can be reasoned about. -/
def APIClient.makeRequest (c : APIClient) (endpoint : String)
    (o : SessionOutcome) : String × Except String ApiPayload :=
  (c.base_url ++ "/" ++ lstripSlash endpoint,
   match o with
   | .response status js txt =>
     if raisesForStatus status then .error (httpErrorText status)
     else
       match js with
       | some j => .ok (.json j)
       | none => .ok (.text txt)
   | .exn e => .error e)

/-! Embedding of `RateLimitedClient` (Requests.py lines 481-504).

Wall-clock instants and durations are modelled as exact rationals. -/

/-- The client state: the fixed minimum interval and the completion time of
the last request (`0` before any request). -/
structure RateLimitedClient where
  min_interval : ℚ
  last_request_time : ℚ
deriving Repr, DecidableEq

/-- Constructor `RateLimitedClient.__init__(requests_per_second)`. -/
def RateLimitedClient.init (requests_per_second : ℚ) : RateLimitedClient :=
  { min_interval := 1 / requests_per_second, last_request_time := 0 }

/-- The observable timing of one `make_request` call. -/
structure CallTiming where
  sleep_time : ℚ
  start_time : ℚ
  finish_time : ℚ
deriving Repr, DecidableEq

/-- Method `RateLimitedClient.make_request` (Requests.py lines 488-504):
`current` is the value of `time.time()` on entry; `duration ≥ 0` is how
long the HTTP request itself takes.  If less than `min_interval` has
elapsed since the last request, sleep for exactly the difference; the
request then starts, and on completion `last_request_time` is set to the
completion instant. -/
def RateLimitedClient.make_request (c : RateLimitedClient)
    (current duration : ℚ) : CallTiming × RateLimitedClient :=
  let time_since_last := current - c.last_request_time
  let sleep_time :=
    if time_since_last < c.min_interval then c.min_interval - time_since_last
    else 0
  let start := current + sleep_time
  let finish := start + duration
  (⟨sleep_time, start, finish⟩, { c with last_request_time := finish })

/-- A string of `n` slash characters, for stating slash-insensitivity. -/
def slashes (n : Nat) : String := ⟨List.replicate n '/'⟩

/-- The spec claim that `make_request_with_error_handling` handles a failed
request only by printing — equivalently, that it never returns a structured
error value (no `error_type` entry) to its caller. -/
def handlesFailuresOnlyByPrinting : Prop :=
  ∀ o : RequestOutcome, (make_request_with_error_handling o).error_type = none

end RequestsEx

namespace FlaskEx

/-- The spec claim that the username key is the only session key any
handler writes: every other key is untouched by the login handler. -/
def onlyUsernameKeyWritten : Prop :=
  ∀ (u p : Option String) (t : String) (s : SessionMap) (k : String),
    k ≠ "username" → sget (login_post u p t s).1 k = sget s k

/-! Helper lemmas about the Flask user table. -/

/-- A miss of the linear scan means no element matches. -/
theorem firstById_eq_none {db : List User} {uid : Int} :
    firstById db uid = none ↔ ∀ u ∈ db, u.id ≠ uid := by
  induction db with
  | nil => simp [firstById]
  | cons u rest ih =>
    by_cases h : u.id = uid <;> simp [firstById, h, ih]

/-- A hit of the linear scan returns the first matching index. -/
theorem firstById_eq_some {db : List User} {uid : Int} {u : User}
    (h : firstById db uid = some u) :
    ∃ i, ∃ hi : i < db.length,
      db.get ⟨i, hi⟩ = u ∧ u.id = uid ∧
      ∀ j, ∀ hj : j < db.length, j < i → (db.get ⟨j, hj⟩).id ≠ uid := by
  induction db with
  | nil => simp [firstById] at h
  | cons v rest ih =>
    by_cases hv : v.id = uid
    · simp [firstById, hv] at h
      exact ⟨0, by simp, by simp [h], h ▸ hv, by omega⟩
    · simp [firstById, hv] at h
      obtain ⟨i, hi, hget, hid, hfirst⟩ := ih h
      refine ⟨i + 1, by simpa using hi, by simpa using hget, hid, ?_⟩
      intro j hj hlt
      match j with
      | 0 => simpa using hv
      | j' + 1 =>
        have := hfirst j' (by simpa using hj) (by omega)
        simpa using this

/-- The scan hits as soon as some element matches. -/
theorem firstById_isSome {db : List User} {uid : Int}
    (h : ∃ u ∈ db, u.id = uid) : ∃ u, firstById db uid = some u := by
  rcases hn : firstById db uid with _ | u
  · obtain ⟨u, hu, hid⟩ := h
    exact absurd hid (firstById_eq_none.mp hn u hu)
  · exact ⟨u, rfl⟩

/-- On a list whose prefix has no match, the scan returns the head of the
rest when it matches. -/
theorem firstById_append (post : List User) {pre : List User} {u₀ : User}
    {uid : Int} (hpre : ∀ v ∈ pre, v.id ≠ uid) (hu : u₀.id = uid) :
    firstById (pre ++ u₀ :: post) uid = some u₀ := by
  induction pre with
  | nil => simp [firstById, hu]
  | cons v rest ih =>
    have hv : v.id ≠ uid := hpre v (by simp)
    simp only [List.cons_append, firstById, if_neg hv]
    exact ih fun w hw => hpre w (by simp [hw])

/-- In-place update of the first match, on a first-occurrence split. -/
theorem updateFirst_append (post : List User) {pre : List User} {u₀ : User}
    {uid : Int} {f : User → User} (hpre : ∀ v ∈ pre, v.id ≠ uid)
    (hu : u₀.id = uid) :
    updateFirst (pre ++ u₀ :: post) uid f = pre ++ f u₀ :: post := by
  induction pre with
  | nil => simp [updateFirst, hu]
  | cons v rest ih =>
    have hv : v.id ≠ uid := hpre v (by simp)
    simp only [List.cons_append, updateFirst, if_neg hv]
    exact congrArg (v :: ·) (ih fun w hw => hpre w (by simp [hw]))

/-- Unfolding one item of the whitelist update. -/
theorem applyWhitelist_cons (u : User) (kv : String × JVal) (rest : Dict) :
    applyWhitelist u (kv :: rest) = applyWhitelist (applyField u kv) rest := rfl

/-- One whitelist step never assigns the `id` field. -/
theorem applyField_id (u : User) (kv : String × JVal) :
    (applyField u kv).id = u.id := by
  unfold applyField
  repeat' split
  all_goals rfl

/-- The field whitelist never assigns the `id` field. -/
theorem applyWhitelist_id (u : User) (d : Dict) :
    (applyWhitelist u d).id = u.id := by
  induction d generalizing u with
  | nil => rfl
  | cons kv rest ih => rw [applyWhitelist_cons, ih, applyField_id]

/-- Keys outside the whitelist are ignored: filtering them away first
changes nothing. -/
theorem applyWhitelist_filter (u : User) (d : Dict) :
    applyWhitelist u d =
      applyWhitelist u
        (d.filter fun kv => kv.1 = "name" ∨ kv.1 = "email" ∨ kv.1 = "age") := by
  induction d generalizing u with
  | nil => rfl
  | cons kv rest ih =>
    by_cases hkv : kv.1 = "name" ∨ kv.1 = "email" ∨ kv.1 = "age"
    · rw [applyWhitelist_cons, ih, List.filter_cons_of_pos (by simpa using hkv),
        applyWhitelist_cons]
    · have hid : applyField u kv = u := by
        push_neg at hkv
        simp [applyField, hkv.1, hkv.2.1, hkv.2.2]
      rw [applyWhitelist_cons, hid, ih,
        List.filter_cons_of_neg (by simpa using hkv)]

/-- The seed of a `max`-fold bounds the fold from below. -/
theorem le_foldl_max (x : Int) (xs : List Int) : x ≤ xs.foldl max x := by
  induction xs generalizing x with
  | nil => exact le_refl x
  | cons y ys ih => exact le_trans (le_max_left x y) (ih (max x y))

/-- Every member of the list bounds a `max`-fold from below. -/
theorem mem_le_foldl_max {a : Int} {xs : List Int} (x : Int) (h : a ∈ xs) :
    a ≤ xs.foldl max x := by
  induction xs generalizing x with
  | nil => cases h
  | cons y ys ih =>
    rcases List.mem_cons.mp h with rfl | h'
    · exact le_trans (le_max_right x a) (le_foldl_max _ _)
    · exact ih _ h'

/-- Python `max` of a nonempty list bounds every element. -/
theorem mem_le_listMax {a : Int} {xs : List Int} (h : a ∈ xs) :
    a ≤ listMax xs := by
  cases xs with
  | nil => cases h
  | cons x ys =>
    rcases List.mem_cons.mp h with rfl | h'
    · exact le_foldl_max _ _
    · exact mem_le_foldl_max _ h'

/-- Lookup after a dict assignment. -/
theorem sget_sset (s : SessionMap) (k v k' : String) :
    sget (sset s k v) k' = if k' = k then some v else sget s k' := by
  induction s with
  | nil =>
    simp only [sset, sget]
    by_cases h : k = k'
    · subst h; simp
    · rw [if_neg h, if_neg fun hc => h hc.symm]
  | cons kv rest ih =>
    by_cases hk : kv.1 = k
    · by_cases h : k = k'
      · subst h; simp [sset, sget, hk]
      · have h2 : ¬kv.1 = k' := hk ▸ h
        have h3 : ¬k' = k := fun hc => h hc.symm
        simp [sset, sget, hk, h, h2, h3]
    · by_cases h : kv.1 = k'
      · have h2 : ¬k' = k := fun hc => hk (h.symm ▸ hc)
        simp [sset, sget, hk, h, h2]
      · simp [sset, sget, hk, h, ih]

/-- Unfolding `session.pop` one entry at a time. -/
theorem spop_cons (kv : String × String) (rest : SessionMap) (k : String) :
    spop (kv :: rest) k =
      if kv.1 = k then spop rest k else kv :: spop rest k := by
  by_cases h : kv.1 = k <;> simp [spop, List.filter_cons, h]

/-- Lookup after `session.pop`. -/
theorem sget_spop (s : SessionMap) (k k' : String) :
    sget (spop s k) k' = if k' = k then none else sget s k' := by
  induction s with
  | nil => simp [spop, sget]
  | cons kv rest ih =>
    rw [spop_cons]
    by_cases hk : kv.1 = k
    · by_cases h : kv.1 = k'
      · have hkk : k' = k := h ▸ hk
        subst hkk
        simp [hk, ih]
      · have h2 : ¬k' = k := fun hc => h (hk ▸ hc ▸ rfl)
        have h3 : ¬k = k' := fun hc => h (hk.trans hc)
        simp [hk, h, h2, h3, ih, sget]
    · by_cases h : kv.1 = k'
      · have h2 : ¬k' = k := fun hc => hk (h.symm ▸ hc)
        simp [hk, h, h2, sget]
      · simp [hk, h, ih, sget]

/-- Scan `firstById` only ever returns a matching element. -/
theorem firstById_id {db : List User} {uid : Int} {u : User}
    (h : firstById db uid = some u) : u.id = uid := by
  induction db with
  | nil => simp [firstById] at h
  | cons v rest ih =>
    by_cases hv : v.id = uid
    · simp [firstById, hv] at h
      exact h ▸ hv
    · simp [firstById, hv] at h
      exact ih h

/-- Updating the first match with an id-preserving function leaves the
id column of the table unchanged. -/
theorem updateFirst_map_id {db : List User} {uid : Int} {g : User → User}
    (hg : ∀ u, u.id = uid → (g u).id = u.id) :
    (updateFirst db uid g).map (·.id) = db.map (·.id) := by
  induction db with
  | nil => rfl
  | cons u rest ih =>
    by_cases h : u.id = uid <;> simp [updateFirst, h, hg u, ih]

/-- The login handler leaves every session key other than `username` and
`login_time` unchanged. -/
theorem login_post_sget_other (u p : Option String) (t : String)
    (s : SessionMap) (k : String) (h1 : k ≠ "username")
    (h2 : k ≠ "login_time") :
    sget (login_post u p t s).1 k = sget s k := by
  unfold login_post
  dsimp only
  split
  · rw [sget_sset, if_neg h2, sget_sset, if_neg h1]
  · rfl

/-- Session lookup after the logout handler: both popped keys read as
absent, every other key is unchanged. -/
theorem logout_sget (s : SessionMap) (k : String) :
    sget (logout s).1 k =
      if k = "login_time" then none
      else if k = "username" then none
      else sget s k := by
  show sget (spop (spop s "username") "login_time") k = _
  rw [sget_spop, sget_spop]

/-- Handler `update_user` leaves the id column of the table unchanged. -/
theorem update_user_map_id (db : List User) (uid : Int) (data : Option Dict) :
    (update_user db uid data).2.map (·.id) = db.map (·.id) := by
  rcases hf : firstById db uid with _ | u₀
  · simp [update_user, hf]
  · rcases data with _ | d
    · simp [update_user, hf]
    · by_cases hd : d = []
      · simp [update_user, hf, hd]
      · simp only [update_user, hf, if_neg hd]
        exact updateFirst_map_id fun v hv => by
          rw [applyWhitelist_id, firstById_id hf, hv]

end FlaskEx

namespace RequestsEx

/-! Helper lemmas about slash stripping. -/

/-- Leading slashes are consumed by `dropWhile isSlash`. -/
theorem dropWhile_isSlash_replicate (n : Nat) (l : List Char) :
    List.dropWhile isSlash (List.replicate n '/' ++ l) =
      List.dropWhile isSlash l := by
  induction n with
  | zero => rfl
  | succ m ih => simp [List.replicate_succ, List.dropWhile_cons, isSlash, ih]

/-- Stripping `lstrip('/')` ignores any block of leading slashes. -/
theorem lstripSlash_slashes_append (m : Nat) (e : String) :
    lstripSlash (slashes m ++ e) = lstripSlash e := by
  unfold lstripSlash slashes
  rw [String.data_append]
  exact congrArg String.mk (dropWhile_isSlash_replicate m e.data)

/-- Stripping `rstrip('/')` ignores any block of trailing slashes. -/
theorem rstripSlash_append_slashes (n : Nat) (b : String) :
    rstripSlash (b ++ slashes n) = rstripSlash b := by
  unfold rstripSlash slashes
  rw [String.data_append]
  refine congrArg (fun l : List Char => String.mk l.reverse) ?_
  show List.dropWhile isSlash (b.data ++ List.replicate n '/').reverse =
    List.dropWhile isSlash b.data.reverse
  rw [List.reverse_append, List.reverse_replicate]
  exact dropWhile_isSlash_replicate n b.data.reverse

end RequestsEx

namespace Claims

open FlaskEx RequestsEx

/-- **C3**: user lookup is a linear scan of the in-memory list: for every
`user_id`, `get_user` returns the first element of the table whose id
equals `user_id` (status 200) when one exists, and the `User not found`
error with status 404 when no element has that id. -/
theorem get_user_linear_scan (db : List User) (uid : Int) :
    ((∃ u ∈ db, u.id = uid) →
      ∃ i, ∃ hi : i < db.length,
        (db.get ⟨i, hi⟩).id = uid ∧
        (∀ j, ∀ hj : j < db.length, j < i → (db.get ⟨j, hj⟩).id ≠ uid) ∧
        get_user db uid = (.user (db.get ⟨i, hi⟩), 200)) ∧
    ((∀ u ∈ db, u.id ≠ uid) →
      get_user db uid = (.err "User not found", 404)) := by
  constructor
  · intro h
    obtain ⟨u, hu⟩ := firstById_isSome h
    obtain ⟨i, hi, hget, hid, hfirst⟩ := firstById_eq_some hu
    exact ⟨i, hi, hget ▸ hid, hfirst, by simp only [get_user, hu]; rw [hget]⟩
  · intro h
    simp [get_user, firstById_eq_none.mpr h]

/-- Witness: in the initial table, id 2 is found (it is Bob, at index 1)
and id 99 yields the 404 error. -/
theorem get_user_linear_scan_witness :
    (∃ i, ∃ hi : i < users_db.length,
      (users_db.get ⟨i, hi⟩).id = 2 ∧
      (∀ j, ∀ hj : j < users_db.length, j < i →
        (users_db.get ⟨j, hj⟩).id ≠ 2) ∧
      get_user users_db 2 = (.user (users_db.get ⟨i, hi⟩), 200)) ∧
    get_user users_db 99 = (.err "User not found", 404) :=
  ⟨(get_user_linear_scan users_db 2).1
      ⟨⟨2, .str "Bob Smith", .str "bob@example.com", .int 32⟩, by decide, by decide⟩,
   (get_user_linear_scan users_db 99).2 (by decide)⟩

/-- **C6**: delete is total over the list and atomic on error: when some
element has the requested id, `delete_user` reports success and removes
exactly the elements whose id equals `user_id`; when none has, it returns
the 404 error and the table is unchanged. -/
theorem delete_user_total_atomic (db : List User) (uid : Int) :
    ((∃ u ∈ db, u.id = uid) →
      (delete_user db uid).1 = (.msg "User deleted successfully", 200) ∧
      (delete_user db uid).2 = db.filter (fun u => u.id ≠ uid) ∧
      ∀ v : User, v ∈ (delete_user db uid).2 ↔ v ∈ db ∧ v.id ≠ uid) ∧
    ((∀ u ∈ db, u.id ≠ uid) →
      delete_user db uid = ((.err "User not found", 404), db)) := by
  constructor
  · intro h
    obtain ⟨u, hu⟩ := firstById_isSome h
    refine ⟨by simp [delete_user, hu], by simp [delete_user, hu], ?_⟩
    intro v
    simp [delete_user, hu, List.mem_filter]
  · intro h
    simp [delete_user, firstById_eq_none.mpr h]

/-- Witness: deleting id 2 from the initial table succeeds and keeps
Alice and Charlie; deleting id 99 is a 404 no-op. -/
theorem delete_user_total_atomic_witness :
    ((delete_user users_db 2).1 = (.msg "User deleted successfully", 200) ∧
      (delete_user users_db 2).2 = users_db.filter (fun u => u.id ≠ 2) ∧
      ∀ v : User, v ∈ (delete_user users_db 2).2 ↔ v ∈ users_db ∧ v.id ≠ 2) ∧
    delete_user users_db 99 = ((.err "User not found", 404), users_db) :=
  ⟨(delete_user_total_atomic users_db 2).1
      ⟨⟨2, .str "Bob Smith", .str "bob@example.com", .int 32⟩, by decide, by decide⟩,
   (delete_user_total_atomic users_db 99).2 (by decide)⟩

/-- **C9**: update touches only the allowed fields of the targeted user:
on the first-occurrence split of the table, `update_user` replaces only
the targeted element, its `id` field is unchanged, the response carries
the updated user, and keys of the body outside `name`/`email`/`age` are
ignored. -/
theorem update_user_frame (pre post : List User) (u₀ : User) (uid : Int)
    (d : Dict) (hpre : ∀ v ∈ pre, v.id ≠ uid) (hu : u₀.id = uid)
    (hd : d ≠ []) :
    (update_user (pre ++ u₀ :: post) uid (some d)).2 =
      pre ++ applyWhitelist u₀ d :: post ∧
    (applyWhitelist u₀ d).id = u₀.id ∧
    (update_user (pre ++ u₀ :: post) uid (some d)).1 =
      (.user (applyWhitelist u₀ d), 200) ∧
    applyWhitelist u₀ d =
      applyWhitelist u₀
        (d.filter fun kv => kv.1 = "name" ∨ kv.1 = "email" ∨ kv.1 = "age") := by
  have hf := firstById_append post hpre hu
  have hup :=
    updateFirst_append (f := fun _ => applyWhitelist u₀ d) post hpre hu
  refine ⟨?_, applyWhitelist_id u₀ d, ?_, applyWhitelist_filter u₀ d⟩
  · simp [update_user, hf, if_neg hd, hup]
  · simp [update_user, hf, if_neg hd]

/-- Witness: updating Bob with a body that renames him and carries the
ignored keys `id` and `role`. -/
theorem update_user_frame_witness :
    (update_user users_db 2
        (some [("name", .str "Bobby"), ("id", .int 99), ("role", .str "x")])).2 =
      [⟨1, .str "Alice Johnson", .str "alice@example.com", .int 28⟩] ++
        applyWhitelist ⟨2, .str "Bob Smith", .str "bob@example.com", .int 32⟩
          [("name", .str "Bobby"), ("id", .int 99), ("role", .str "x")] ::
        [⟨3, .str "Charlie Brown", .str "charlie@example.com", .int 25⟩] ∧
    (applyWhitelist ⟨2, .str "Bob Smith", .str "bob@example.com", .int 32⟩
        [("name", .str "Bobby"), ("id", .int 99), ("role", .str "x")]).id = 2 ∧
    (update_user users_db 2
        (some [("name", .str "Bobby"), ("id", .int 99), ("role", .str "x")])).1 =
      (.user (applyWhitelist ⟨2, .str "Bob Smith", .str "bob@example.com", .int 32⟩
        [("name", .str "Bobby"), ("id", .int 99), ("role", .str "x")]), 200) ∧
    applyWhitelist ⟨2, .str "Bob Smith", .str "bob@example.com", .int 32⟩
        [("name", .str "Bobby"), ("id", .int 99), ("role", .str "x")] =
      applyWhitelist ⟨2, .str "Bob Smith", .str "bob@example.com", .int 32⟩
        ([("name", .str "Bobby"), ("id", .int 99), ("role", .str "x")].filter
          fun kv => kv.1 = "name" ∨ kv.1 = "email" ∨ kv.1 = "age") :=
  update_user_frame
    [⟨1, .str "Alice Johnson", .str "alice@example.com", .int 28⟩]
    [⟨3, .str "Charlie Brown", .str "charlie@example.com", .int 25⟩]
    ⟨2, .str "Bob Smith", .str "bob@example.com", .int 32⟩ 2
    [("name", .str "Bobby"), ("id", .int 99), ("role", .str "x")]
    (by decide) (by decide) (by decide)

/-- **C8**: user ids stay unique and fresh: pairwise-distinct ids are
preserved by `create_user`, `update_user` and `delete_user`, and a
successful `create_user` appends a user whose id is strictly greater than
every existing id — the maximum plus one, or 1 on an empty table. -/
theorem user_ids_unique_fresh (db : List User) (uid : Int) (data : Option Dict)
    (h : (db.map (·.id)).Pairwise (· ≠ ·)) :
    ((create_user db data).2.map (·.id)).Pairwise (· ≠ ·) ∧
    ((update_user db uid data).2.map (·.id)).Pairwise (· ≠ ·) ∧
    ((delete_user db uid).2.map (·.id)).Pairwise (· ≠ ·) ∧
    ∀ d, data = some d → dget d "name" ≠ none → dget d "email" ≠ none →
      ∃ w : User, (create_user db data).2 = db ++ [w] ∧
        (∀ u ∈ db, u.id < w.id) ∧
        (db = [] → w.id = 1) ∧
        (db ≠ [] → w.id = listMax (db.map (·.id)) + 1) := by
  have hfresh : ∀ u ∈ db,
      u.id < (if db = [] then 1 else listMax (db.map (·.id)) + 1) := by
    intro u hu
    have hne : db ≠ [] := by
      cases db with
      | nil => cases hu
      | cons v rest => simp
    rw [if_neg hne]
    have : u.id ≤ listMax (db.map (·.id)) :=
      mem_le_listMax (List.mem_map_of_mem (·.id) hu)
    omega
  have hcreate : ((create_user db data).2.map (·.id)).Pairwise (· ≠ ·) := by
    rcases data with _ | d
    · simpa [create_user] using h
    · by_cases hg : d = [] ∨ dget d "name" = none ∨ dget d "email" = none
      · simpa [create_user, hg] using h
      · simp only [create_user, if_neg hg, List.map_append]
        rw [List.pairwise_append]
        refine ⟨h, by simp, ?_⟩
        intro a ha b hb
        simp only [List.map_cons, List.map_nil, List.mem_singleton] at hb
        obtain ⟨u, hu, rfl⟩ := List.mem_map.mp ha
        subst hb
        exact ne_of_lt (hfresh u hu)
  refine ⟨hcreate, ?_, ?_, ?_⟩
  · rw [update_user_map_id]; exact h
  · rcases hf : firstById db uid with _ | u₀
    · simpa [delete_user, hf] using h
    · simp only [delete_user, hf]
      exact h.sublist ((List.filter_sublist db).map (·.id))
  · intro d hdata hname hemail
    subst hdata
    have hg : ¬(d = [] ∨ dget d "name" = none ∨ dget d "email" = none) := by
      push_neg
      refine ⟨?_, hname, hemail⟩
      cases d with
      | nil => exact absurd rfl hname
      | cons kv rest => simp
    refine ⟨{ id := if db = [] then 1 else listMax (db.map (·.id)) + 1,
              name := (dget d "name").getD .null,
              email := (dget d "email").getD .null,
              age := (dget d "age").getD (.int 0) },
            by simp [create_user, if_neg hg], hfresh, ?_, ?_⟩
    · intro hdb
      subst hdb
      simp
    · intro hdb
      simp [if_neg hdb]

/-- Witness: from the initial table (distinct ids 1, 2, 3), all three
operations preserve distinctness and creating Dana appends id 4 = 3 + 1. -/
theorem user_ids_unique_fresh_witness :
    ((create_user users_db
        (some [("name", .str "Dana"), ("email", .str "dana@example.com")])).2.map
      (·.id)).Pairwise (· ≠ ·) ∧
    ((update_user users_db 2
        (some [("name", .str "Dana"), ("email", .str "dana@example.com")])).2.map
      (·.id)).Pairwise (· ≠ ·) ∧
    ((delete_user users_db 2).2.map (·.id)).Pairwise (· ≠ ·) ∧
    ∀ d, some [("name", JVal.str "Dana"), ("email", JVal.str "dana@example.com")]
          = some d →
        dget d "name" ≠ none → dget d "email" ≠ none →
      ∃ w : User,
        (create_user users_db
          (some [("name", .str "Dana"), ("email", .str "dana@example.com")])).2 =
            users_db ++ [w] ∧
        (∀ u ∈ users_db, u.id < w.id) ∧
        (users_db = [] → w.id = 1) ∧
        (users_db ≠ [] → w.id = listMax (users_db.map (·.id)) + 1) :=
  user_ids_unique_fresh users_db 2
    (some [("name", .str "Dana"), ("email", .str "dana@example.com")])
    (by decide)

/-- **C2** (counterexample): the claim that the username key is the only
session key a handler writes is false — on a successful login the handler
also writes the `login_time` key. -/
theorem login_writes_more_than_username : ¬ onlyUsernameKeyWritten := fun h =>
  absurd
    (h (some "alice") (some "pw") "2024-01-01T00:00:00" [] "login_time"
      (by decide))
    (by decide)

/-- **C2** (amended): the only session keys any handler writes are
`username` and `login_time`: every route handler leaves every other
session key unchanged, and after logout neither application-written key
remains — logout itself writes nothing, it only removes. -/
theorem session_keys_username_and_login_time (r : Route) (st : ModuleState)
    (rq : RequestCtx) (k : String) (h1 : k ≠ "username")
    (h2 : k ≠ "login_time") :
    sget (runHandler r st rq).sess k = sget rq.sess k ∧
    sget (runHandler .logoutR st rq).sess "username" = none ∧
    sget (runHandler .logoutR st rq).sess "login_time" = none ∧
    ∀ k', sget (runHandler .logoutR st rq).sess k' = sget rq.sess k' ∨
      sget (runHandler .logoutR st rq).sess k' = none := by
  refine ⟨?_, ?_, ?_, ?_⟩
  · cases r <;> simp only [runHandler, pureOut] <;> (repeat' split) <;>
      first
        | rfl
        | exact login_post_sget_other _ _ _ _ _ h1 h2
        | rw [logout_sget, if_neg h2, if_neg h1]
  · show sget (logout rq.sess).1 "username" = none
    rw [logout_sget, if_neg (by decide), if_pos rfl]
  · show sget (logout rq.sess).1 "login_time" = none
    rw [logout_sget, if_pos rfl]
  · intro k'
    show sget (logout rq.sess).1 k' = sget rq.sess k' ∨
      sget (logout rq.sess).1 k' = none
    by_cases hk1 : k' = "login_time"
    · right
      rw [logout_sget, if_pos hk1]
    · by_cases hk2 : k' = "username"
      · right
        rw [logout_sget, if_neg hk1, if_pos hk2]
      · left
        rw [logout_sget, if_neg hk1, if_neg hk2]

/-- Witness: a successful POST login from an empty session leaves the key
`theme` unchanged, and logging out removes both written keys. -/
theorem session_keys_username_and_login_time_witness :
    sget (runHandler .loginR ⟨users_db, "your-secret-key-here", []⟩
        ⟨"POST", "/login", "", 0, none, some "alice", some "pw", none, false,
          [], "2024-01-01T00:00:00"⟩).sess "theme"
      = sget ([] : SessionMap) "theme" ∧
    sget (runHandler .logoutR ⟨users_db, "your-secret-key-here", []⟩
        ⟨"POST", "/login", "", 0, none, some "alice", some "pw", none, false,
          [], "2024-01-01T00:00:00"⟩).sess "username" = none ∧
    sget (runHandler .logoutR ⟨users_db, "your-secret-key-here", []⟩
        ⟨"POST", "/login", "", 0, none, some "alice", some "pw", none, false,
          [], "2024-01-01T00:00:00"⟩).sess "login_time" = none ∧
    ∀ k', sget (runHandler .logoutR ⟨users_db, "your-secret-key-here", []⟩
        ⟨"POST", "/login", "", 0, none, some "alice", some "pw", none, false,
          [], "2024-01-01T00:00:00"⟩).sess k'
        = sget ([] : SessionMap) k' ∨
      sget (runHandler .logoutR ⟨users_db, "your-secret-key-here", []⟩
        ⟨"POST", "/login", "", 0, none, some "alice", some "pw", none, false,
          [], "2024-01-01T00:00:00"⟩).sess k' = none :=
  session_keys_username_and_login_time .loginR
    ⟨users_db, "your-secret-key-here", []⟩
    ⟨"POST", "/login", "", 0, none, some "alice", some "pw", none, false,
      [], "2024-01-01T00:00:00"⟩ "theme" (by decide) (by decide)

/-- **C1** (counterexample): the claim that failed requests are handled
only by printing is false — `make_request_with_error_handling` returns a
structured error dict (with an `error_type` entry) to its caller, shown
here on a connection failure. -/
theorem error_dict_returned_not_printed : ¬ handlesFailuresOnlyByPrinting :=
  fun h => absurd (h .connectionError) (by decide)

/-- **C1** (amended): every error path catches the library's exception
type, but not all of them merely print: `make_request_with_error_handling`
returns a structured error dict with `success = False`, an `error_type`
and — for HTTP errors — the status code; `APIClient._make_request` prints
and then re-raises the exception; `get_user` answers a missing resource
with a structured 404 JSON error, not by printing. -/
theorem error_paths_return_structured_errors (r : HttpResponse)
    (o : RequestOutcome) (c : APIClient) (ep e : String)
    (db : List User) (uid : Int)
    (hr : raisesForStatus r.status_code = true)
    (ho : o = .connectionError ∨ o = .timeoutError ∨
      ∃ msg, o = .requestError msg)
    (hdb : ∀ u ∈ db, u.id ≠ uid) :
    (make_request_with_error_handling (.response r)).success = false ∧
    (make_request_with_error_handling (.response r)).error_type
      = some "HTTP Error" ∧
    (make_request_with_error_handling (.response r)).status_code
      = some r.status_code ∧
    (make_request_with_error_handling o).success = false ∧
    (make_request_with_error_handling o).error_type ≠ none ∧
    (c.makeRequest ep (.exn e)).2 = .error e ∧
    get_user db uid = (.err "User not found", 404) := by
  refine ⟨?_, ?_, ?_, ?_, ?_, rfl, ?_⟩
  · simp [make_request_with_error_handling, hr]
  · simp [make_request_with_error_handling, hr]
  · simp [make_request_with_error_handling, hr]
  · rcases ho with rfl | rfl | ⟨msg, rfl⟩ <;>
      simp [make_request_with_error_handling]
  · rcases ho with rfl | rfl | ⟨msg, rfl⟩ <;>
      simp [make_request_with_error_handling]
  · simp [get_user, firstById_eq_none.mpr hdb]

/-- Witness: a 404 response, a connection error, a raised
`RequestException` in the API client, and a lookup of the missing id 99. -/
theorem error_paths_return_structured_errors_witness :
    (make_request_with_error_handling
        (.response ⟨404, [], none, "not found"⟩)).success = false ∧
    (make_request_with_error_handling
        (.response ⟨404, [], none, "not found"⟩)).error_type
      = some "HTTP Error" ∧
    (make_request_with_error_handling
        (.response ⟨404, [], none, "not found"⟩)).status_code = some 404 ∧
    (make_request_with_error_handling .connectionError).success = false ∧
    (make_request_with_error_handling .connectionError).error_type ≠ none ∧
    ((APIClient.init "https://api.example.com" 30).makeRequest "posts"
        (.exn "boom")).2 = .error "boom" ∧
    get_user users_db 99 = (.err "User not found", 404) :=
  error_paths_return_structured_errors ⟨404, [], none, "not found"⟩
    .connectionError (APIClient.init "https://api.example.com" 30)
    "posts" "boom" users_db 99 (by decide) (Or.inl rfl) (by decide)

/-- **C4**: the retry example only configures the library's built-in
retry machinery: the returned session mounts the same adapter under both
the `http://` and `https://` prefixes, its policy has `total = 3`,
retries exactly the status codes 429, 500, 502, 503, 504, retries only
HEAD, GET and OPTIONS, and uses backoff factor 1; the session has
performed no request (and the straight-line definition has no loop). -/
theorem retry_session_configuration :
    create_session_with_retries.mounts =
      [("https://", ⟨retry_strategy⟩), ("http://", ⟨retry_strategy⟩)] ∧
    retry_strategy.total = 3 ∧
    retry_strategy.status_forcelist = [429, 500, 502, 503, 504] ∧
    retry_strategy.method_whitelist = ["HEAD", "GET", "OPTIONS"] ∧
    retry_strategy.backoff_factor = 1 ∧
    create_session_with_retries.requests_made = 0 :=
  ⟨rfl, rfl, rfl, rfl, rfl, rfl⟩

/-- **C5**: the rate limiter enforces a fixed minimum interval: a client
built with rate `r` has `min_interval = 1/r`; on each call, when less
than `1/r` has elapsed since the previous request completed, the client
first sleeps for exactly the remaining difference, and the request never
starts earlier than `1/r` after the previous completion;
`last_request_time` is updated to the new completion instant and the
interval itself never changes. -/
theorem rate_limiter_enforces_min_interval (r current duration : ℚ)
    (c : RateLimitedClient) (hm : c.min_interval = 1 / r)
    (hd : 0 ≤ duration) :
    (RateLimitedClient.init r).min_interval = 1 / r ∧
    (current - c.last_request_time < 1 / r →
      (c.make_request current duration).1.sleep_time
        = 1 / r - (current - c.last_request_time)) ∧
    c.last_request_time + 1 / r
      ≤ (c.make_request current duration).1.start_time ∧
    (c.make_request current duration).1.start_time
      ≤ (c.make_request current duration).1.finish_time ∧
    (c.make_request current duration).2.last_request_time
      = (c.make_request current duration).1.finish_time ∧
    (c.make_request current duration).2.min_interval = c.min_interval := by
  obtain ⟨m, last⟩ := c
  have hm2 : m = 1 / r := hm
  subst hm2
  refine ⟨rfl, ?_, ?_, ?_, rfl, rfl⟩
  · intro h
    dsimp only [RateLimitedClient.make_request]
    rw [if_pos h]
  · dsimp only [RateLimitedClient.make_request]
    by_cases h : current - last < 1 / r
    · rw [if_pos h]
      linarith
    · rw [if_neg h]
      push_neg at h
      linarith
  · dsimp only [RateLimitedClient.make_request]
    by_cases h : current - last < 1 / r
    · rw [if_pos h]
      linarith
    · rw [if_neg h]
      linarith

/-- Witness: a client at rate 2 whose call arrives a quarter second after
the zero instant sleeps and starts exactly half a second in. -/
theorem rate_limiter_enforces_min_interval_witness :
    (RateLimitedClient.init 2).min_interval = 1 / 2 ∧
    ((1 : ℚ) / 4 - (RateLimitedClient.init 2).last_request_time < 1 / 2 →
      ((RateLimitedClient.init 2).make_request (1 / 4) 1).1.sleep_time
        = 1 / 2 - ((1 : ℚ) / 4 - (RateLimitedClient.init 2).last_request_time)) ∧
    (RateLimitedClient.init 2).last_request_time + 1 / 2
      ≤ ((RateLimitedClient.init 2).make_request (1 / 4) 1).1.start_time ∧
    ((RateLimitedClient.init 2).make_request (1 / 4) 1).1.start_time
      ≤ ((RateLimitedClient.init 2).make_request (1 / 4) 1).1.finish_time ∧
    ((RateLimitedClient.init 2).make_request (1 / 4) 1).2.last_request_time
      = ((RateLimitedClient.init 2).make_request (1 / 4) 1).1.finish_time ∧
    ((RateLimitedClient.init 2).make_request (1 / 4) 1).2.min_interval
      = (RateLimitedClient.init 2).min_interval :=
  rate_limiter_enforces_min_interval 2 (1 / 4) 1 (RateLimitedClient.init 2)
    (by norm_num [RateLimitedClient.init]) (by norm_num)

/-- **C7**: no route handler mutates or rebinds any module-level binding
other than `users_db`: for every handler, the module state after the
handler agrees with the state before it on every field except possibly
`users_db`. -/
theorem handlers_modify_only_users_db (r : Route) (st : ModuleState)
    (rq : RequestCtx) :
    (runHandler r st rq).state =
      { st with users_db := (runHandler r st rq).state.users_db } := by
  cases r <;> simp only [runHandler, pureOut] <;> (repeat' split) <;> rfl

/-- **C10**: `APIClient` URL joining is slash-insensitive: the requested
URL is the base with trailing slashes removed, a single slash, then the
endpoint with leading slashes removed; adding trailing slashes to the
base or leading slashes to the endpoint requests the same URL. -/
theorem api_client_url_slash_insensitive (b e : String) (n m : Nat)
    (o o' : SessionOutcome) :
    ((APIClient.init b 30).makeRequest e o).1 =
      rstripSlash b ++ "/" ++ lstripSlash e ∧
    ((APIClient.init (b ++ slashes n) 30).makeRequest (slashes m ++ e) o').1 =
      ((APIClient.init b 30).makeRequest e o).1 := by
  constructor
  · rfl
  · show rstripSlash (b ++ slashes n) ++ "/" ++ lstripSlash (slashes m ++ e) =
      rstripSlash b ++ "/" ++ lstripSlash e
    rw [rstripSlash_append_slashes, lstripSlash_slashes_append]

end Claims


